import Mathlib

/-
Verification of the zynmidicontroller protocol translator
(src/zynlibs/zynmidicontroller/zynmidicontroller.cpp).

The C++ globals become fields of an explicit state record `MState`; each C
function becomes a Lean function threading that state.  MIDI bytes are
modelled as `Nat` with an explicit `% 256` wherever the C code stores an
`int` into an `unsigned char`.  The outbound queue `g_vSendQueue` is a list
of envelopes (byte lists); the JACK output buffer is a capacity-bounded
list of envelopes.  OSC publishes and host-MIDI writes performed by the
input handler are returned as explicit output lists.
-/

namespace ZynMidi

/-- Sequence status values. Modelled from the spec: the numeric constants
STOPPED, STARTING, RESTARTING, PLAYING, STOPPING, DISABLED come from
constants.h, which is not part of the translator source file; the spec
(section 3, PadState) enumerates exactly these statuses, so they are
represented as an enumeration. -/
inductive SeqState where
  | stopped
  | starting
  | restarting
  | playing
  | stopping
  | disabled
deriving DecidableEq

/-- One outbound MIDI message (MIDI_MESSAGE: a byte sequence). -/
abbrev Envelope := List Nat

/-- The translator's mutable state: the C++ file's globals.
`inputProtocol`, `outputProtocol`, `protocol` model `g_nInputProtocol`,
`g_nOutputProtocol`, `g_nProtocol` (unsigned int, with the sentinel -1
modelled as `none`).  `shift` is `g_bShift`, `ccOffset` is `g_nCCoffset`
(a C `int`, hence `Int`), `midiChannel` is `g_nMidiChannel`, `padColour`
is the 64-entry array `g_nPadColour`, `sendQueue` is `g_vSendQueue`, and
`subscribed` records whether the OSC methods/registrations installed by
`enableDevice` are currently active. -/
structure MState where
  inputProtocol : Option Nat
  outputProtocol : Option Nat
  protocol : Option Nat
  shift : Bool
  ccOffset : Int
  midiChannel : Nat
  padColour : List Nat
  sendQueue : List Envelope
  subscribed : Bool
deriving DecidableEq

/-- Initial state: all three protocol variables are -1 (none); the global
`g_nPadColour` array is zero-initialised; the queue is empty. -/
def initState : MState :=
  { inputProtocol := none, outputProtocol := none, protocol := none,
    shift := false, ccOffset := 0, midiChannel := 0,
    padColour := List.replicate 64 0, sendQueue := [], subscribed := false }

/-- Total array lookup (C array indexing within bounds; out of range
yields 0, which never occurs at the call sites' guarded indices). -/
def listAt (l : List Nat) (i : Nat) : Nat := l.getD i 0

/-- `g_nDrumPads`: MIDI note for each drum pad (24 entries). -/
def drumPads : List Nat :=
  [40,41,42,43,44,45,46,47,48,49,50,51,36,37,38,39,40,41,42,43,44,45,46,47]

/-- `g_nLKM3SessionPads`: MIDI note for each Launchkey Mini MK3 session pad. -/
def lkm3SessionPads : List Nat :=
  [96,97,98,99,100,101,102,103,112,113,114,115,116,117,118,119]

/-- `g_nLPM3SessionPads`: MIDI note for each Launchpad Mini MK3 session pad. -/
def lpm3SessionPads : List Nat :=
  [81,82,83,84,85,86,87,88,
   71,72,73,74,75,76,77,78,
   61,62,63,64,65,66,67,68,
   51,52,53,54,55,56,57,58,
   41,42,43,44,45,46,47,48,
   31,32,33,34,35,36,37,38,
   21,22,23,24,25,26,27,28,
   11,12,13,14,15,16,17,18]

/-- `g_nPadColours`: the 16-entry colour palette. -/
def padColours : List Nat := [67,35,9,47,105,63,94,126,40,81,8,45,28,95,104,44]

/-- `g_nDrumColour`. -/
def drumColour : Nat := 79

/-- `g_nDrumOnColour`. -/
def drumOnColour : Nat := 90

/-- `g_nStartingColour`. -/
def startingColour : Nat := 123

/-- `g_nStoppingColour`. -/
def stoppingColour : Nat := 120

/- Protocol indices: g_sSupported lists "Launchkey-Mini-MK3-MIDI-2" at
index 0 and "Launchpad-Mini-MK3-MIDI-2" at index 1, and onJackConnect
passes the matched index as the protocol value, so
DEVICE_LAUNCHKEY_MINI_MK3 = 0 and DEVICE_LAUNCHPAD_MINI_MK3 = 1.
Literal 0/1 are used in the match patterns below. -/

/-- `isDeviceConnected`: if the input and output protocol agree, copy that
value into `g_nProtocol`; report whether `g_nProtocol` is not -1.  Note
that this both reads and writes the state. -/
def isDeviceConnected (s : MState) : Bool × MState :=
  let s := if s.inputProtocol = s.outputProtocol then
             { s with protocol := s.inputProtocol } else s
  (s.protocol.isSome, s)

/-- `sendDeviceMidi`: enqueue an arbitrary-length MIDI message unless it is
empty or its first byte is below 128. -/
def sendDeviceMidi (data : List Nat) (s : MState) : MState :=
  match data with
  | [] => s
  | b :: _ =>
    if b < 128 then s
    else { s with sendQueue := s.sendQueue ++ [data] }

/-- `sendDeviceMidi3`: enqueue a 3-byte MIDI message unless the status byte
is below 128 or (both data bytes exceed 127) -- the source's condition is
`status < 128 || value1 > 127 && value2 > 127`. -/
def sendDeviceMidi3 (status v1 v2 : Nat) (s : MState) : MState :=
  if status < 128 ∨ (127 < v1 ∧ 127 < v2) then s
  else { s with sendQueue := s.sendQueue ++ [[status, v1, v2]] }

/-- The switch body of `sendPadStatusToDevice`: given the resolved pad
note and the pad's stored colour (`g_nPadColour[sequence]`), enqueue the
message(s) for the given status. -/
def padStatusMessages (pad colour : Nat) (st : SeqState) (s : MState) : MState :=
  match st with
  | .stopped => sendDeviceMidi3 0x90 pad colour s
  | .starting =>
      sendDeviceMidi3 0x91 pad startingColour (sendDeviceMidi3 0x90 pad colour s)
  | .restarting =>
      sendDeviceMidi3 0x91 pad startingColour (sendDeviceMidi3 0x90 pad colour s)
  | .playing => sendDeviceMidi3 0x92 pad colour s
  | .stopping =>
      sendDeviceMidi3 0x91 pad stoppingColour (sendDeviceMidi3 0x90 pad colour s)
  | .disabled => sendDeviceMidi3 0x90 pad 0 s

/-- `sendPadStatusToDevice`: translate a (sequence, status) pair into the
device LED message(s) and enqueue them.  Launchkey (protocol 0) accepts
sequence < 16 with its pad table, Launchpad (protocol 1) accepts
sequence < 64 with its table; anything else returns without effect. -/
def sendPadStatusToDevice (sequence : Nat) (st : SeqState) (s : MState) : MState :=
  if s.protocol = some 0 ∧ sequence < 16 then
    padStatusMessages (listAt lkm3SessionPads sequence)
      (listAt s.padColour sequence) st s
  else if s.protocol = some 1 ∧ sequence < 64 then
    padStatusMessages (listAt lpm3SessionPads sequence)
      (listAt s.padColour sequence) st s
  else s

/-- `onOscStatus`: sequence-status notification from the control bus.  The
arguments are the uint8 values obtained from the OSC integers.  Indices
above 63 are rejected; otherwise the pad colour is recorded from the
palette (group modulo 16) and the status is forwarded to the device. -/
def onOscStatus (_bank sequence : Nat) (st : SeqState) (group : Nat)
    (s : MState) : MState :=
  if 63 < sequence then s
  else
    let s := { s with
      padColour := s.padColour.set sequence (listAt padColours (group % 16)) }
    sendPadStatusToDevice sequence st s

/-- `selectKnobs`: public bank selection.  Only protocol 0 (Launchkey)
acts; it calls `isDeviceConnected` (which may rewrite `protocol`) and, if
connected and bank < 7, sets the CC offset and enqueues the confirmation
message (0xbf, 9, bank). -/
def selectKnobs (bank : Nat) (s : MState) : MState :=
  match s.protocol with
  | some 0 =>
    let p := isDeviceConnected s
    let s := p.2
    if p.1 ∧ bank < 7 then
      sendDeviceMidi3 0xbf 9 bank { s with ccOffset := (bank : Int) }
    else s
  | _ => s

/-- `enableDevice`: on enable, install the OSC methods and registrations
(modelled by the `subscribed` flag), then per protocol: Launchkey sends
session-mode on/off, and when enabling also paints the 16 drum pads,
resends Stopped for the 16 session pads and selects knob bank 1; Launchpad
sends the programmer-layout sysex.  Nothing happens unless
`isDeviceConnected` reports a connection. -/
def enableDevice (enable : Bool) (s : MState) : MState :=
  let p := isDeviceConnected s
  let s := p.2
  if !p.1 then s
  else
    let s := { s with subscribed := enable }
    match s.protocol with
    | some 0 =>
      let s := sendDeviceMidi3 0x9f 12 (if enable then 127 else 0) s
      if !enable then s
      else
        let s := (List.range 16).foldl
          (fun t pad => sendDeviceMidi3 0x99 (listAt drumPads pad) drumColour t) s
        let s := (List.range 16).foldl
          (fun t pad => sendPadStatusToDevice pad .stopped t) s
        selectKnobs 1 s
    | some 1 => sendDeviceMidi [0xf0,0x00,0x20,0x29,0x02,0x0d,0x00,0x7f,0xf7] s
    | _ => s

/-- `initLaunchkey`: reject protocol indices beyond the supported list,
clear `g_nProtocol`, and only if `isDeviceConnected` then holds (input and
output protocol agree and are set) adopt the protocol and run the enable
sequence. -/
def initLaunchkey (protocol : Nat) (s : MState) : MState :=
  if 2 ≤ protocol then s
  else
    let s := { s with protocol := none }
    let p := isDeviceConnected s
    let s := p.2
    if !p.1 then s
    else
      let s := { s with protocol := some protocol }
      enableDevice true s

/-- Which of the translator's two device-facing ports a connection
notification concerns. -/
inductive PortRole where
  | deviceInput
  | deviceOutput
deriving DecidableEq

/-- One port connect/disconnect notification delivered to `onJackConnect`
for one of the translator's own ports: the role of the local port, the
list of supported-device indices matched by the remote port's aliases (in
loop order; each index is < 2 because it indexes `g_sSupported`), and the
connect flag. -/
structure Notification where
  role : PortRole
  hits : List (Fin 2)
  connected : Bool

/-- One iteration of the alias/supported-token loop body in
`onJackConnect`: record the matched protocol (or -1 on disconnect) in the
field for the port's role, then call `initLaunchkey` with the matched
index. -/
def processMatch (role : PortRole) (connected : Bool) (j : Fin 2)
    (s : MState) : MState :=
  match role with
  | .deviceInput =>
      initLaunchkey (j : Nat)
        (if connected then { s with inputProtocol := some (j : Nat) }
         else { s with inputProtocol := none })
  | .deviceOutput =>
      initLaunchkey (j : Nat)
        (if connected then { s with outputProtocol := some (j : Nat) }
         else { s with outputProtocol := none })

/-- `onJackConnect` restricted to the translator's own ports: run the loop
body once per matched alias/token pair. -/
def onJackConnect (n : Notification) (s : MState) : MState :=
  n.hits.foldl (fun t j => processMatch n.role n.connected j t) s

/-- Process a whole sequence of notifications from the initial state. -/
def processNotifications (ns : List Notification) : MState :=
  ns.foldl (fun s n => onJackConnect n s) initState

/-- Semantic actions published to the control bus by the input handler
(the `/cuia/...` OSC sends). -/
inductive OscAction where
  | toggleSequence (n : Int)
  | backUp
  | backDown
  | selectUp
  | selectDown
  | switchSelectShort
  | switchBackShort
  | toggleAudioPlay
  | toggleAudioRecord
  | toggleMidiPlay
  | toggleMidiRecord
deriving DecidableEq

/-- Result of handling one incoming MIDI event: the new state, the MIDI
messages written to the host output buffer, and the control-bus
publishes. -/
structure HResult where
  state : MState
  hostOut : List (List Nat)
  oscOut : List OscAction
deriving DecidableEq

/-- Store a C `int` into an `unsigned char`: reduction modulo 256. -/
def byteOfInt (x : Int) : Nat := (x % 256).toNat

/-- The body of `protocolHandler` for a 3-byte event, switching on the
active protocol; only protocol 0 (Launchkey Mini) is implemented. -/
def protocolHandlerBody (st d1 d2 : Nat) (s : MState) : HResult :=
  match s.protocol with
  | some 0 =>
    if st &&& 0xF0 = 0x90 then
      if 35 < d1 ∧ d1 < 52 then
        ⟨sendDeviceMidi3 0x99 d1 drumOnColour s, [[0x99, d1 % 256, d2 % 256]], []⟩
      else if 95 < d1 ∧ d1 < 104 then
        ⟨s, [], [.toggleSequence ((d1 : Int) - 96)]⟩
      else if 111 < d1 ∧ d1 < 120 then
        ⟨s, [], [.toggleSequence ((d1 : Int) - 104)]⟩
      else ⟨s, [], []⟩
    else if st &&& 0xF0 = 0x80 then
      if 35 < d1 ∧ d1 < 52 then
        ⟨sendDeviceMidi3 0x99 d1 drumColour s, [[0x89, d1 % 256, d2 % 256]], []⟩
      else ⟨s, [], []⟩
    else if st &&& 0xF0 = 0xb0 then
      let s :=
        if d1 = 9 then { s with ccOffset := 8 * ((d2 : Int) - 1) }
        else if d1 = 108 then { s with shift := d2 ≠ 0 }
        else s
      if s.shift then
        if d1 = 104 then ⟨s, [], if d2 ≠ 0 then [.backUp] else []⟩
        else if d1 = 105 then ⟨s, [], if d2 ≠ 0 then [.backDown] else []⟩
        else if d1 = 103 then ⟨s, [], if d2 ≠ 0 then [.selectUp] else []⟩
        else if d1 = 102 then ⟨s, [], if d2 ≠ 0 then [.selectDown] else []⟩
        else if 20 < d1 ∧ d1 < 29 then
          ⟨s, [[(0xb0 ||| s.midiChannel) % 256,
                byteOfInt ((d1 : Int) + s.ccOffset + 40), d2 % 256]], []⟩
        else if d1 = 115 then ⟨s, [], if d2 ≠ 0 then [.toggleAudioPlay] else []⟩
        else if d1 = 117 then ⟨s, [], if d2 ≠ 0 then [.toggleAudioRecord] else []⟩
        else ⟨s, [], []⟩
      else
        if d1 = 104 then ⟨s, [], if d2 ≠ 0 then [.switchSelectShort] else []⟩
        else if d1 = 105 then ⟨s, [], if d2 ≠ 0 then [.switchBackShort] else []⟩
        else if 20 < d1 ∧ d1 < 29 then
          ⟨s, [[(0xb0 ||| s.midiChannel) % 256,
                byteOfInt ((d1 : Int) + s.ccOffset), d2 % 256]], []⟩
        else if d1 = 115 then ⟨s, [], if d2 ≠ 0 then [.toggleMidiPlay] else []⟩
        else if d1 = 117 then ⟨s, [], if d2 ≠ 0 then [.toggleMidiRecord] else []⟩
        else ⟨s, [], []⟩
    else ⟨s, [], []⟩
  | _ => ⟨s, [], []⟩

/-- `protocolHandler`: events whose size is not exactly 3 are dropped
before anything else; 3-byte events go to the per-protocol body. -/
def protocolHandler (ev : List Nat) (s : MState) : HResult :=
  match ev with
  | [st, d1, d2] => protocolHandlerBody st d1 d2 s
  | _ => ⟨s, [], []⟩

/-- The device output buffer of one JACK period.  Modelled from the spec:
the transport boundary (section 6) provides a reservable byte sink where
each reservation of `length` bytes succeeds exactly when capacity is not
exhausted; `jack_midi_event_reserve` itself is outside the repository. -/
structure OutBuffer where
  capacity : Nat
  events : List Envelope
deriving DecidableEq

/-- Bytes already reserved in the buffer. -/
def bufUsed (b : OutBuffer) : Nat := (b.events.map List.length).sum

/-- The queue-drain loop of `onJackProcess`: walk the send queue from the
head; reserve space for each envelope, stopping at the first failed
reservation; copied envelopes are removed from the queue.  Returns the
remaining queue and the filled buffer. -/
def drainQueue (q : List Envelope) (b : OutBuffer) : List Envelope × OutBuffer :=
  match q with
  | [] => ([], b)
  | e :: rest =>
    if bufUsed b + e.length ≤ b.capacity then
      drainQueue rest { b with events := b.events ++ [e] }
    else (e :: rest, b)

/-- The connection invariant of the spec: the active protocol is set
exactly when the input-port and output-port protocols agree on a set
value. -/
def connInvariant (s : MState) : Prop :=
  s.protocol ≠ none ↔ (s.inputProtocol = s.outputProtocol ∧ s.inputProtocol ≠ none)

/-- Concrete notification sequence: a Launchkey Mini MK3 connects to both
the device input and the device output port. -/
def lkConnect : List Notification :=
  [⟨.deviceInput, [0], true⟩, ⟨.deviceOutput, [0], true⟩]

/-- State after a Launchkey Mini MK3 is fully connected. -/
def sActive : MState := processNotifications lkConnect

/-- Concrete notification sequence: a Launchpad Mini MK3 connects to both
ports. -/
def lpConnect : List Notification :=
  [⟨.deviceInput, [1], true⟩, ⟨.deviceOutput, [1], true⟩]

/-- A constructed state with the Launchkey protocol active (used to
discharge hypotheses at concrete inputs). -/
def sLK : MState :=
  { initState with
    inputProtocol := some 0,
    outputProtocol := some 0,
    protocol := some 0 }

/-- State reached from `sActive` after the device sends the dedicated
bank-select control change (CC 9) with value 127: the CC offset becomes
8 * (127 - 1) = 1008. -/
def sBank : MState := (protocolHandler [0xb0, 9, 127] sActive).state

section QueueShape

/-- `sendDeviceMidi3` only ever changes the send queue. -/
lemma sendDeviceMidi3_shape (a b c : Nat) (s : MState) :
    ∃ q, sendDeviceMidi3 a b c s = { s with sendQueue := q } := by
  by_cases h : a < 128 ∨ (127 < b ∧ 127 < c)
  · refine ⟨s.sendQueue, ?_⟩
    simp only [sendDeviceMidi3]
    rw [if_pos h]
  · refine ⟨s.sendQueue ++ [[a, b, c]], ?_⟩
    simp only [sendDeviceMidi3]
    rw [if_neg h]

/-- `sendDeviceMidi` only ever changes the send queue. -/
lemma sendDeviceMidi_shape (d : List Nat) (s : MState) :
    ∃ q, sendDeviceMidi d s = { s with sendQueue := q } := by
  cases d with
  | nil => exact ⟨s.sendQueue, rfl⟩
  | cons b t =>
    by_cases hb : b < 128
    · refine ⟨s.sendQueue, ?_⟩
      simp only [sendDeviceMidi]
      rw [if_pos hb]
    · refine ⟨s.sendQueue ++ [b :: t], ?_⟩
      simp only [sendDeviceMidi]
      rw [if_neg hb]

/-- `padStatusMessages` only ever changes the send queue. -/
lemma padStatusMessages_shape (pad colour : Nat) (st : SeqState) (s : MState) :
    ∃ q, padStatusMessages pad colour st s = { s with sendQueue := q } := by
  cases st <;> simp only [padStatusMessages]
  case stopped => exact sendDeviceMidi3_shape _ _ _ s
  case playing => exact sendDeviceMidi3_shape _ _ _ s
  case disabled => exact sendDeviceMidi3_shape _ _ _ s
  all_goals
    obtain ⟨q1, h1⟩ := sendDeviceMidi3_shape 0x90 pad colour s
    rw [h1]
    exact sendDeviceMidi3_shape 0x91 pad _ { s with sendQueue := q1 }

/-- `sendPadStatusToDevice` only ever changes the send queue. -/
lemma sendPadStatusToDevice_shape (n : Nat) (st : SeqState) (s : MState) :
    ∃ q, sendPadStatusToDevice n st s = { s with sendQueue := q } := by
  simp only [sendPadStatusToDevice]
  split
  · exact padStatusMessages_shape _ _ _ s
  · split
    · exact padStatusMessages_shape _ _ _ s
    · exact ⟨s.sendQueue, rfl⟩

/-- A fold whose step only changes the send queue itself only changes the
send queue. -/
lemma foldl_shape (f : MState → Nat → MState)
    (hf : ∀ t n, ∃ q, f t n = { t with sendQueue := q }) :
    ∀ (l : List Nat) (s : MState), ∃ q, l.foldl f s = { s with sendQueue := q } := by
  intro l
  induction l with
  | nil => exact fun s => ⟨s.sendQueue, rfl⟩
  | cons a t ih =>
    intro s
    obtain ⟨q1, h1⟩ := hf s a
    obtain ⟨q2, h2⟩ := ih { s with sendQueue := q1 }
    exact ⟨q2, by rw [List.foldl_cons, h1]; exact h2⟩

end QueueShape

section ConnectionDetector

/-- Field preservation for `sendDeviceMidi3`: every field except the send
queue is unchanged. -/
lemma sendDeviceMidi3_fields (a b c : Nat) (s : MState) :
    (sendDeviceMidi3 a b c s).inputProtocol = s.inputProtocol ∧
    (sendDeviceMidi3 a b c s).outputProtocol = s.outputProtocol ∧
    (sendDeviceMidi3 a b c s).protocol = s.protocol ∧
    (sendDeviceMidi3 a b c s).shift = s.shift ∧
    (sendDeviceMidi3 a b c s).ccOffset = s.ccOffset ∧
    (sendDeviceMidi3 a b c s).midiChannel = s.midiChannel ∧
    (sendDeviceMidi3 a b c s).padColour = s.padColour ∧
    (sendDeviceMidi3 a b c s).subscribed = s.subscribed := by
  obtain ⟨q, h⟩ := sendDeviceMidi3_shape a b c s
  rw [h]
  exact ⟨rfl, rfl, rfl, rfl, rfl, rfl, rfl, rfl⟩

/-- Field preservation for `sendDeviceMidi`. -/
lemma sendDeviceMidi_fields (d : List Nat) (s : MState) :
    (sendDeviceMidi d s).inputProtocol = s.inputProtocol ∧
    (sendDeviceMidi d s).outputProtocol = s.outputProtocol ∧
    (sendDeviceMidi d s).protocol = s.protocol ∧
    (sendDeviceMidi d s).shift = s.shift ∧
    (sendDeviceMidi d s).ccOffset = s.ccOffset ∧
    (sendDeviceMidi d s).midiChannel = s.midiChannel ∧
    (sendDeviceMidi d s).padColour = s.padColour ∧
    (sendDeviceMidi d s).subscribed = s.subscribed := by
  obtain ⟨q, h⟩ := sendDeviceMidi_shape d s
  rw [h]
  exact ⟨rfl, rfl, rfl, rfl, rfl, rfl, rfl, rfl⟩

/-- Field preservation for `sendPadStatusToDevice`. -/
lemma sendPadStatusToDevice_fields (n : Nat) (st : SeqState) (s : MState) :
    (sendPadStatusToDevice n st s).inputProtocol = s.inputProtocol ∧
    (sendPadStatusToDevice n st s).outputProtocol = s.outputProtocol ∧
    (sendPadStatusToDevice n st s).protocol = s.protocol ∧
    (sendPadStatusToDevice n st s).shift = s.shift ∧
    (sendPadStatusToDevice n st s).ccOffset = s.ccOffset ∧
    (sendPadStatusToDevice n st s).midiChannel = s.midiChannel ∧
    (sendPadStatusToDevice n st s).padColour = s.padColour ∧
    (sendPadStatusToDevice n st s).subscribed = s.subscribed := by
  obtain ⟨q, h⟩ := sendPadStatusToDevice_shape n st s
  rw [h]
  exact ⟨rfl, rfl, rfl, rfl, rfl, rfl, rfl, rfl⟩

/-- Field preservation for the drum-pad colour fold in `enableDevice`. -/
lemma drumFold_fields (l : List Nat) (s : MState) :
    ((l.foldl (fun t pad =>
        sendDeviceMidi3 0x99 (listAt drumPads pad) drumColour t) s).inputProtocol
      = s.inputProtocol) ∧
    ((l.foldl (fun t pad =>
        sendDeviceMidi3 0x99 (listAt drumPads pad) drumColour t) s).outputProtocol
      = s.outputProtocol) ∧
    ((l.foldl (fun t pad =>
        sendDeviceMidi3 0x99 (listAt drumPads pad) drumColour t) s).protocol
      = s.protocol) ∧
    ((l.foldl (fun t pad =>
        sendDeviceMidi3 0x99 (listAt drumPads pad) drumColour t) s).padColour
      = s.padColour) ∧
    ((l.foldl (fun t pad =>
        sendDeviceMidi3 0x99 (listAt drumPads pad) drumColour t) s).subscribed
      = s.subscribed) := by
  obtain ⟨q, h⟩ := foldl_shape _ (fun t n => sendDeviceMidi3_shape _ _ _ t) l s
  rw [h]
  exact ⟨rfl, rfl, rfl, rfl, rfl⟩

/-- Field preservation for the session-pad Stopped fold in `enableDevice`. -/
lemma padFold_fields (l : List Nat) (s : MState) :
    ((l.foldl (fun t pad => sendPadStatusToDevice pad .stopped t) s).inputProtocol
      = s.inputProtocol) ∧
    ((l.foldl (fun t pad => sendPadStatusToDevice pad .stopped t) s).outputProtocol
      = s.outputProtocol) ∧
    ((l.foldl (fun t pad => sendPadStatusToDevice pad .stopped t) s).protocol
      = s.protocol) ∧
    ((l.foldl (fun t pad => sendPadStatusToDevice pad .stopped t) s).padColour
      = s.padColour) ∧
    ((l.foldl (fun t pad => sendPadStatusToDevice pad .stopped t) s).subscribed
      = s.subscribed) := by
  obtain ⟨q, h⟩ := foldl_shape _ (fun t n => sendPadStatusToDevice_shape _ _ t) l s
  rw [h]
  exact ⟨rfl, rfl, rfl, rfl, rfl⟩

/-- `selectKnobs` does not touch the two port-protocol fields, and changes
the active protocol only through its `isDeviceConnected` call (when the
active protocol is the Launchkey). -/
lemma selectKnobs_proj (b : Nat) (s : MState) :
    (selectKnobs b s).inputProtocol = s.inputProtocol ∧
    (selectKnobs b s).outputProtocol = s.outputProtocol ∧
    (selectKnobs b s).protocol =
      (if s.protocol = some 0 then
        (if s.inputProtocol = s.outputProtocol then s.inputProtocol
         else s.protocol)
       else s.protocol) := by
  rcases hp : s.protocol with _ | k
  · simp only [selectKnobs, hp]
    simp
  · match k with
    | 0 =>
      simp only [selectKnobs, hp, isDeviceConnected]
      by_cases hio : s.inputProtocol = s.outputProtocol
      · rw [if_pos hio]
        simp only [if_pos hio]
        split
        · obtain ⟨q, hq⟩ := sendDeviceMidi3_shape 0xbf 9 b
            { { s with protocol := s.inputProtocol } with ccOffset := (b : Int) }
          rw [hq]
          exact ⟨rfl, rfl, rfl⟩
        · exact ⟨rfl, rfl, rfl⟩
      · rw [if_neg hio]
        simp only [if_neg hio]
        split
        · obtain ⟨q, hq⟩ := sendDeviceMidi3_shape 0xbf 9 b { s with ccOffset := (b : Int) }
          rw [hq]
          exact ⟨rfl, rfl, hp⟩
        · exact ⟨rfl, rfl, hp⟩
    | (k + 1) =>
      simp only [selectKnobs, hp]
      simp

/-- `enableDevice` does not touch the two port-protocol fields, and its
effect on the active protocol is exactly that of `isDeviceConnected`. -/
lemma enableDevice_proj (e : Bool) (s : MState) :
    (enableDevice e s).inputProtocol = s.inputProtocol ∧
    (enableDevice e s).outputProtocol = s.outputProtocol ∧
    (enableDevice e s).protocol =
      (if s.inputProtocol = s.outputProtocol then s.inputProtocol
       else s.protocol) := by
  simp only [enableDevice, isDeviceConnected]
  by_cases hio : s.inputProtocol = s.outputProtocol
  · simp only [if_pos hio]
    rcases hin : s.inputProtocol with _ | k
    · simp [hin]
    · match k with
      | 0 =>
        cases e <;>
          simp [hin, hio, sendDeviceMidi3_fields, sendDeviceMidi_fields,
            drumFold_fields, padFold_fields, selectKnobs_proj]
      | 1 =>
        cases e <;>
          simp [hin, hio, sendDeviceMidi3_fields, sendDeviceMidi_fields,
            drumFold_fields, padFold_fields, selectKnobs_proj]
      | (k + 2) =>
        cases e <;> simp [hin, hio]
  · simp only [if_neg hio]
    rcases hpr : s.protocol with _ | k
    · simp [hpr, hio]
    · match k with
      | 0 =>
        cases e <;>
          simp [hpr, hio, sendDeviceMidi3_fields, sendDeviceMidi_fields,
            drumFold_fields, padFold_fields, selectKnobs_proj]
      | 1 =>
        cases e <;>
          simp [hpr, hio, sendDeviceMidi3_fields, sendDeviceMidi_fields,
            drumFold_fields, padFold_fields, selectKnobs_proj]
      | (k + 2) =>
        cases e <;> simp [hpr, hio]

/-- `initLaunchkey` keeps the two port-protocol fields and recomputes the
active protocol from scratch: it becomes the common port protocol when
input and output agree and `none` otherwise. -/
lemma initLaunchkey_proj (j : Nat) (s : MState) (hj : j < 2) :
    (initLaunchkey j s).inputProtocol = s.inputProtocol ∧
    (initLaunchkey j s).outputProtocol = s.outputProtocol ∧
    (initLaunchkey j s).protocol =
      (if s.inputProtocol = s.outputProtocol then s.inputProtocol else none) := by
  have h2 : ¬ 2 ≤ j := by omega
  by_cases hio : s.inputProtocol = s.outputProtocol
  · rcases hin : s.inputProtocol with _ | k
    · have hout : s.outputProtocol = none := by rw [← hio]; exact hin
      simp [initLaunchkey, isDeviceConnected, hio, hin, hout, h2]
    · have hout : s.outputProtocol = some k := by rw [← hio]; exact hin
      simp [initLaunchkey, isDeviceConnected, hio, hin, hout, h2,
        enableDevice_proj]
  · simp [initLaunchkey, isDeviceConnected, hio, h2]

/-- `initLaunchkey` re-establishes the connection invariant regardless of
the incoming state. -/
lemma connInvariant_initLaunchkey (j : Nat) (hj : j < 2) (s : MState) :
    connInvariant (initLaunchkey j s) := by
  obtain ⟨h1, h2, h3⟩ := initLaunchkey_proj j s hj
  unfold connInvariant
  rw [h1, h2, h3]
  by_cases hio : s.inputProtocol = s.outputProtocol
  · simp [hio]
  · simp [hio]

/-- Each alias/token match processed by `onJackConnect` re-establishes the
connection invariant. -/
lemma connInvariant_processMatch (role : PortRole) (c : Bool) (j : Fin 2)
    (s : MState) : connInvariant (processMatch role c j s) := by
  cases role <;> cases c <;> exact connInvariant_initLaunchkey _ j.isLt _

/-- A whole notification preserves the connection invariant. -/
lemma connInvariant_onJackConnect (n : Notification) (s : MState)
    (h : connInvariant s) : connInvariant (onJackConnect n s) := by
  obtain ⟨role, hits, c⟩ := n
  unfold onJackConnect
  induction hits generalizing s with
  | nil => exact h
  | cons j t ih =>
    rw [List.foldl_cons]
    exact ih _ (connInvariant_processMatch role c j s)

end ConnectionDetector

/-- C1: for every sequence of connection/disconnection notifications
delivered on the translator's own device input and device output ports,
after each notification is processed the active protocol is set (non-Unset)
iff the most recently recorded input protocol and output protocol are
equal and not Unset.  (Every prefix of a notification sequence is itself a
notification sequence, so quantifying over all sequences covers the state
after each notification.) -/
theorem connection_invariant_holds (ns : List Notification) :
    connInvariant (processNotifications ns) := by
  have hinit : connInvariant initState := by
    unfold connInvariant initState
    simp
  unfold processNotifications
  have main : ∀ (l : List Notification) (s : MState), connInvariant s →
      connInvariant (l.foldl (fun t n => onJackConnect n t) s) := by
    intro l
    induction l with
    | nil => exact fun s h => h
    | cons a t ih =>
      intro s h
      rw [List.foldl_cons]
      exact ih _ (connInvariant_onJackConnect a s h)
  exact main ns initState hinit

/-- C3 (counterexample): a concrete run in which the active protocol goes
from set (Launchkey, after both ports connect) to Unset (input port
disconnects), yet no disable sequence runs: the OSC subscriptions stay
installed, the outbound queue receives nothing (in particular no
session-mode-off message 0x9f 12 0), contradicting the claim that the
Connection Detector invokes the disable sequence on that transition. -/
theorem disconnect_no_disable_counterexample :
    sActive.protocol = some 0 ∧
    (onJackConnect ⟨.deviceInput, [0], false⟩ sActive).protocol = none ∧
    (onJackConnect ⟨.deviceInput, [0], false⟩ sActive).subscribed = true ∧
    (onJackConnect ⟨.deviceInput, [0], false⟩ sActive).sendQueue
      = sActive.sendQueue ∧
    [0x9f, 12, 0] ∉ (onJackConnect ⟨.deviceInput, [0], false⟩ sActive).sendQueue := by
  decide

/-- C3 (amended): a disconnect notification on either device port only
clears the corresponding port-protocol field and the active protocol; the
disable sequence is not invoked -- the queue, the subscription state and
every other field are untouched. -/
theorem disconnect_clears_protocol_only (s : MState) (j : Fin 2) :
    onJackConnect ⟨.deviceInput, [j], false⟩ s =
      { s with inputProtocol := none, protocol := none } ∧
    onJackConnect ⟨.deviceOutput, [j], false⟩ s =
      { s with outputProtocol := none, protocol := none } := by
  have hj : ¬ 2 ≤ (j : Nat) := by omega
  constructor
  · simp only [onJackConnect, List.foldl_cons, List.foldl_nil, processMatch,
      Bool.false_eq_true, if_false, initLaunchkey, isDeviceConnected, hj]
    split <;> simp_all
  · simp only [onJackConnect, List.foldl_cons, List.foldl_nil, processMatch,
      Bool.false_eq_true, if_false, initLaunchkey, isDeviceConnected, hj]
    split <;> simp_all

/-- C2: one execution of the drain step removes queued envelopes from the
head in enqueue order, copying each into the device output buffer, stops
at the first failed space reservation, and leaves exactly the
not-yet-copied envelopes queued in their original order; no envelope is
dropped and none is delivered twice (the copied prefix and the remaining
suffix partition the original queue). -/
theorem drainQueue_spec (q : List Envelope) (b : OutBuffer) :
    ∃ k, k ≤ q.length ∧
      q.take k ++ q.drop k = q ∧
      drainQueue q b = (q.drop k, ⟨b.capacity, b.events ++ q.take k⟩) ∧
      (q.drop k = [] ∨
        b.capacity <
          bufUsed b + ((q.take k).map List.length).sum
            + ((q.drop k).headD []).length) := by
  induction q generalizing b with
  | nil =>
    refine ⟨0, Nat.le_refl 0, rfl, ?_, Or.inl rfl⟩
    show ([], b) = ([], ⟨b.capacity, b.events ++ []⟩)
    rw [List.append_nil]
  | cons e rest ih =>
    by_cases h : bufUsed b + e.length ≤ b.capacity
    · obtain ⟨k, hk, -, heq, hstop⟩ := ih ⟨b.capacity, b.events ++ [e]⟩
      refine ⟨k + 1, Nat.succ_le_succ hk, List.take_append_drop _ _, ?_, ?_⟩
      · show drainQueue (e :: rest) b = _
        simp only [drainQueue]
        rw [if_pos h, heq]
        simp [List.append_assoc]
      · rcases hstop with h1 | h2
        · exact Or.inl (by simpa using h1)
        · refine Or.inr ?_
          simp only [bufUsed, List.map_append, List.map_cons, List.map_nil,
            List.sum_append, List.sum_cons, List.sum_nil] at h2
          simp only [bufUsed, List.take_succ_cons, List.drop_succ_cons,
            List.map_cons, List.sum_cons]
          omega
    · refine ⟨0, Nat.zero_le _, List.take_append_drop _ _, ?_, ?_⟩
      · show drainQueue (e :: rest) b = _
        simp only [drainQueue]
        rw [if_neg h]
        simp
      · refine Or.inr ?_
        simp only [List.take_zero, List.drop_zero, List.map_nil, List.sum_nil,
          List.headD_cons]
        omega

/-- C2 (witness): the spec's partial-drain test, obtained by applying the
drain theorem at a buffer with room for exactly two of three 3-byte
envelopes. -/
theorem drainQueue_spec_witness :
    ∃ k, k ≤ ([[144,60,1],[144,61,2],[144,62,3]] : List Envelope).length ∧
      ([[144,60,1],[144,61,2],[144,62,3]] : List Envelope).take k
          ++ ([[144,60,1],[144,61,2],[144,62,3]] : List Envelope).drop k
        = [[144,60,1],[144,61,2],[144,62,3]] ∧
      drainQueue [[144,60,1],[144,61,2],[144,62,3]] ⟨6, []⟩
        = (([[144,60,1],[144,61,2],[144,62,3]] : List Envelope).drop k,
           ⟨6, [] ++ ([[144,60,1],[144,61,2],[144,62,3]] : List Envelope).take k⟩) ∧
      (([[144,60,1],[144,61,2],[144,62,3]] : List Envelope).drop k = [] ∨
        6 < bufUsed ⟨6, []⟩
          + ((([[144,60,1],[144,61,2],[144,62,3]] : List Envelope).take k).map
              List.length).sum
          + ((([[144,60,1],[144,61,2],[144,62,3]] : List Envelope).drop k).headD
              []).length) :=
  drainQueue_spec [[144,60,1],[144,61,2],[144,62,3]] ⟨6, []⟩

/-- C10: every incoming device MIDI event whose byte length is not exactly
3 (system-exclusive messages included) leaves the translator state
unchanged and produces no output at all: no host MIDI write, no
control-bus publish and no enqueued envelope. -/
theorem non3byte_events_ignored (ev : List Nat) (s : MState)
    (h : ev.length ≠ 3) : protocolHandler ev s = ⟨s, [], []⟩ := by
  match ev with
  | [] => rfl
  | [_] => rfl
  | [_, _] => rfl
  | [_, _, _] => exact absurd rfl h
  | _ :: _ :: _ :: _ :: _ => rfl

/-- C10 (witness): the Launchpad mode-select sysex (9 bytes) is dropped
with no state change and no outputs, via the theorem at that input. -/
theorem non3byte_events_ignored_witness :
    protocolHandler [0xf0,0x00,0x20,0x29,0x02,0x0d,0x0e,0x01,0xf7] sActive
      = ⟨sActive, [], []⟩ :=
  non3byte_events_ignored [0xf0,0x00,0x20,0x29,0x02,0x0d,0x0e,0x01,0xf7]
    sActive (by decide)

/-- Appending an element always changes a list. -/
lemma queue_ne_append (l : List Envelope) (x : Envelope) : l ≠ l ++ [x] := by
  intro h
  have := congrArg List.length h
  simp at this

/-- C7 (counterexample): the 3-byte constructor drops the byte sequence
144 200 200 even though it is non-empty and its first byte is a valid
status byte (high bit set), because of the extra `value1 > 127 &&
value2 > 127` test -- refuting the claim that construction fails only for
empty sequences or a first byte with the high bit clear. -/
theorem envelope_construction_counterexample :
    (sendDeviceMidi3 144 200 200 initState).sendQueue = [] ∧
    128 ≤ (144 : Nat) ∧ ([144, 200, 200] : List Nat) ≠ [] := by
  decide

/-- C7 (amended): the arbitrary-length constructor enqueues the bytes
unchanged iff the sequence is non-empty and its first byte has the high
bit set (and otherwise drops them silently); the 3-byte constructor
additionally requires that not both data bytes exceed 127. -/
theorem envelope_construction_criteria (data : List Nat) (st v1 v2 : Nat)
    (s : MState) :
    ((sendDeviceMidi data s).sendQueue = s.sendQueue ++ [data] ↔
      data ≠ [] ∧ 128 ≤ data.headD 0) ∧
    ((sendDeviceMidi data s).sendQueue = s.sendQueue ↔
      data = [] ∨ data.headD 0 < 128) ∧
    ((sendDeviceMidi3 st v1 v2 s).sendQueue = s.sendQueue ++ [[st, v1, v2]] ↔
      128 ≤ st ∧ (v1 ≤ 127 ∨ v2 ≤ 127)) ∧
    ((sendDeviceMidi3 st v1 v2 s).sendQueue = s.sendQueue ↔
      st < 128 ∨ (127 < v1 ∧ 127 < v2)) := by
  have hne := queue_ne_append s.sendQueue
  refine ⟨?_, ?_, ?_, ?_⟩
  · cases data with
    | nil => simp [sendDeviceMidi, hne]
    | cons b t =>
      by_cases hb : b < 128
      · simp only [sendDeviceMidi, if_pos hb]
        simp [hne, hb]
      · simp only [sendDeviceMidi, if_neg hb]
        simp
        omega
  · cases data with
    | nil => simp [sendDeviceMidi]
    | cons b t =>
      by_cases hb : b < 128
      · simp only [sendDeviceMidi, if_pos hb]
        simp [hb]
      · simp only [sendDeviceMidi, if_neg hb]
        simp [hne]
        omega
  · by_cases h : st < 128 ∨ (127 < v1 ∧ 127 < v2)
    · simp only [sendDeviceMidi3, if_pos h]
      simp [hne]
      omega
    · simp only [sendDeviceMidi3, if_neg h]
      simp
      omega
  · by_cases h : st < 128 ∨ (127 < v1 ∧ 127 < v2)
    · simp only [sendDeviceMidi3, if_pos h]
      simp [h]
    · simp only [sendDeviceMidi3, if_neg h]
      simp [hne, h]

/-- Every Launchkey session-pad note is a valid data byte. -/
lemma lkm3_le (i : Nat) (h : i < 16) : listAt lkm3SessionPads i ≤ 127 := by
  interval_cases i <;> decide

/-- Every Launchpad session-pad note is a valid data byte. -/
lemma lpm3_le (i : Nat) (h : i < 64) : listAt lpm3SessionPads i ≤ 127 := by
  interval_cases i <;> decide

/-- C4: for every valid pad index and status, the encode step enqueues
exactly the claimed envelopes: Stopped one solid base-colour message
(status 0x90) with the stored colour; Starting/Restarting the base-colour
message followed by the flashing overlay (0x91) carrying the starting
colour; Playing one message on the distinct playing status byte (0x92)
with the stored colour; Stopping base colour then flashing overlay with
the stopping colour; Disabled one base-colour message with colour 0. -/
theorem padStatus_encode_correct (s : MState) (seq : Nat) (st : SeqState)
    (h : s.protocol = some 0 ∧ seq < 16 ∨ s.protocol = some 1 ∧ seq < 64) :
    (sendPadStatusToDevice seq st s).sendQueue = s.sendQueue ++
      (let pad := if s.protocol = some 0 then listAt lkm3SessionPads seq
                  else listAt lpm3SessionPads seq
       let colour := listAt s.padColour seq
       match st with
       | .stopped => [[0x90, pad, colour]]
       | .starting => [[0x90, pad, colour], [0x91, pad, startingColour]]
       | .restarting => [[0x90, pad, colour], [0x91, pad, startingColour]]
       | .playing => [[0x92, pad, colour]]
       | .stopping => [[0x90, pad, colour], [0x91, pad, stoppingColour]]
       | .disabled => [[0x90, pad, 0]]) := by
  rcases h with ⟨hp, hs⟩ | ⟨hp, hs⟩
  · have hpad := Nat.not_lt.mpr (lkm3_le seq hs)
    cases st <;>
      simp [sendPadStatusToDevice, hp, hs, padStatusMessages, sendDeviceMidi3,
        hpad, startingColour, stoppingColour, List.append_assoc]
  · have hpad := Nat.not_lt.mpr (lpm3_le seq hs)
    cases st <;>
      simp [sendPadStatusToDevice, hp, hs, padStatusMessages, sendDeviceMidi3,
        hpad, startingColour, stoppingColour, List.append_assoc]

/-- C4 (witness): the Playing encode at pad 2 on an active Launchkey,
via the theorem at that input (pad note 98, stored colour 0). -/
theorem padStatus_encode_correct_witness :
    (sendPadStatusToDevice 2 .playing sLK).sendQueue
      = sLK.sendQueue ++ [[0x92, 98, 0]] := by
  have h := padStatus_encode_correct sLK 2 .playing (Or.inl ⟨rfl, by decide⟩)
  exact h.trans (by decide)

/-- The drum-pad colour fold appends one idle-colour message per listed
pad index, in order. -/
lemma drumFold_queue (l : List Nat) (s : MState) :
    (l.foldl (fun t pad =>
        sendDeviceMidi3 0x99 (listAt drumPads pad) drumColour t) s).sendQueue
      = s.sendQueue ++ l.map (fun p => [0x99, listAt drumPads p, drumColour]) := by
  induction l generalizing s with
  | nil => simp
  | cons a t ih =>
    rw [List.foldl_cons, List.map_cons]
    have hstep : sendDeviceMidi3 0x99 (listAt drumPads a) drumColour s
        = { s with
            sendQueue := s.sendQueue ++ [[0x99, listAt drumPads a, drumColour]] } := by
      simp only [sendDeviceMidi3]
      rw [if_neg (by simp [drumColour])]
    rw [hstep, ih]
    simp

/-- The session-pad Stopped fold, run with the Launchkey active, appends
one base-colour message per listed pad index (each below 16), in order. -/
lemma padFold_queue (l : List Nat) (s : MState) (hp : s.protocol = some 0)
    (hl : ∀ p ∈ l, p < 16) :
    (l.foldl (fun t pad => sendPadStatusToDevice pad .stopped t) s).sendQueue
      = s.sendQueue ++ l.map (fun p =>
          [0x90, listAt lkm3SessionPads p, listAt s.padColour p]) := by
  induction l generalizing s with
  | nil => simp
  | cons a t ih =>
    have ha : a < 16 := hl a (by simp)
    rw [List.foldl_cons, List.map_cons]
    have hpad := Nat.not_lt.mpr (lkm3_le a ha)
    have hstep : sendPadStatusToDevice a .stopped s
        = { s with
            sendQueue := s.sendQueue
              ++ [[0x90, listAt lkm3SessionPads a, listAt s.padColour a]] } := by
      simp [sendPadStatusToDevice, hp, ha, padStatusMessages, sendDeviceMidi3,
        hpad]
    rw [hstep]
    rw [ih { s with sendQueue := s.sendQueue
          ++ [[0x90, listAt lkm3SessionPads a, listAt s.padColour a]] } hp
        (fun p hpm => hl p (List.mem_cons_of_mem a hpm))]
    simp

/-- `selectKnobs` on an active Launchkey with an in-range bank: set the CC
offset and enqueue exactly one confirmation envelope. -/
lemma selectKnobs_active (b : Nat) (s : MState) (hp : s.protocol = some 0)
    (h1 : s.inputProtocol = some 0) (h2 : s.outputProtocol = some 0)
    (hb : b < 7) :
    selectKnobs b s
      = { s with
          ccOffset := (b : Int),
          sendQueue := s.sendQueue ++ [[0xbf, 9, b]] } := by
  simp [selectKnobs, isDeviceConnected, hp, h1, h2, hb, sendDeviceMidi3]

/-- A 3-byte message with a valid status byte and at least one in-range
data byte is always enqueued. -/
lemma sendDeviceMidi3_ok (a b c : Nat) (s : MState) (ha : 128 ≤ a)
    (hbc : b ≤ 127 ∨ c ≤ 127) :
    sendDeviceMidi3 a b c s
      = { s with sendQueue := s.sendQueue ++ [[a, b, c]] } := by
  simp only [sendDeviceMidi3]
  rw [if_neg (by omega)]

/-- Full-record form of the drum-pad colour fold. -/
lemma drumFold_eq (l : List Nat) (s : MState) :
    l.foldl (fun t pad =>
        sendDeviceMidi3 0x99 (listAt drumPads pad) drumColour t) s
      = { s with sendQueue := s.sendQueue
            ++ l.map (fun p => [0x99, listAt drumPads p, drumColour]) } := by
  obtain ⟨q, hq⟩ := foldl_shape _ (fun t n => sendDeviceMidi3_shape _ _ _ t) l s
  have h2 := drumFold_queue l s
  rw [hq] at h2 ⊢
  simp only at h2
  rw [h2]

/-- Full-record form of the session-pad Stopped fold on an active
Launchkey. -/
lemma padFold_eq (l : List Nat) (s : MState) (hp : s.protocol = some 0)
    (hl : ∀ p ∈ l, p < 16) :
    l.foldl (fun t pad => sendPadStatusToDevice pad .stopped t) s
      = { s with sendQueue := s.sendQueue
            ++ l.map (fun p =>
                [0x90, listAt lkm3SessionPads p, listAt s.padColour p]) } := by
  obtain ⟨q, hq⟩ := foldl_shape _ (fun t n => sendPadStatusToDevice_shape _ _ t) l s
  have h2 := padFold_queue l s hp hl
  rw [hq] at h2 ⊢
  simp only at h2
  rw [h2]

/-- C9 (counterexample): activating the Launchpad Mini MK3 (its supported
protocol index is 1) enqueues exactly one envelope, the programmer-layout
sysex -- not the per-drum-pad colours, per-session-pad Stopped encodes and
default bank selection the claim requires for every supported protocol. -/
theorem launchpad_enable_counterexample :
    (processNotifications lpConnect).protocol = some 1 ∧
    (processNotifications lpConnect).sendQueue
      = [[0xf0,0x00,0x20,0x29,0x02,0x0d,0x00,0x7f,0xf7]] ∧
    (processNotifications lpConnect).sendQueue.length = 1 := by
  decide

/-- C9 (amended): on activation of the Launchkey Mini MK3 (after the
session-mode-on message) the enable sequence iterates the 16 drum pads
setting the idle colour, iterates the 16 session pads emitting the Stopped
encode -- one envelope per pad, each pad index exactly once, in order --
and selects default knob bank 1 with its confirmation envelope; the
Launchpad Mini MK3 enable sequence instead emits only the programmer-layout
sysex. -/
theorem launchkey_enable_sequence (s : MState)
    (h1 : s.inputProtocol = some 0) (h2 : s.outputProtocol = some 0) :
    (enableDevice true s).sendQueue = s.sendQueue
      ++ [[0x9f, 12, 127]]
      ++ ((List.range 16).map fun p => [0x99, listAt drumPads p, drumColour])
      ++ ((List.range 16).map fun p =>
            [0x90, listAt lkm3SessionPads p, listAt s.padColour p])
      ++ [[0xbf, 9, 1]] ∧
    (enableDevice true s).subscribed = true ∧
    (enableDevice true s).ccOffset = 1 := by
  have e1 : enableDevice true s
      = selectKnobs 1
          ((List.range 16).foldl (fun u pad => sendPadStatusToDevice pad .stopped u)
            ((List.range 16).foldl
              (fun u pad => sendDeviceMidi3 0x99 (listAt drumPads pad) drumColour u)
              (sendDeviceMidi3 0x9f 12 127
                { s with protocol := some 0, subscribed := true }))) := by
    simp [enableDevice, isDeviceConnected, h1, h2]
  have step1 : sendDeviceMidi3 0x9f 12 127
        { s with protocol := some 0, subscribed := true }
      = { s with
          protocol := some 0,
          subscribed := true,
          sendQueue := s.sendQueue ++ [[0x9f, 12, 127]] } :=
    sendDeviceMidi3_ok 0x9f 12 127 _ (by omega) (Or.inl (by omega))
  have step2 : (List.range 16).foldl
        (fun u pad => sendDeviceMidi3 0x99 (listAt drumPads pad) drumColour u)
        { s with
          protocol := some 0,
          subscribed := true,
          sendQueue := s.sendQueue ++ [[0x9f, 12, 127]] }
      = { s with
          protocol := some 0,
          subscribed := true,
          sendQueue := (s.sendQueue ++ [[0x9f, 12, 127]])
            ++ ((List.range 16).map fun p =>
                  [0x99, listAt drumPads p, drumColour]) } :=
    drumFold_eq _ _
  have step3 : (List.range 16).foldl
        (fun u pad => sendPadStatusToDevice pad .stopped u)
        { s with
          protocol := some 0,
          subscribed := true,
          sendQueue := (s.sendQueue ++ [[0x9f, 12, 127]])
            ++ ((List.range 16).map fun p =>
                  [0x99, listAt drumPads p, drumColour]) }
      = { s with
          protocol := some 0,
          subscribed := true,
          sendQueue := ((s.sendQueue ++ [[0x9f, 12, 127]])
            ++ ((List.range 16).map fun p =>
                  [0x99, listAt drumPads p, drumColour]))
            ++ ((List.range 16).map fun p =>
                  [0x90, listAt lkm3SessionPads p, listAt s.padColour p]) } :=
    padFold_eq _ _ rfl (fun p hpm => List.mem_range.mp hpm)
  have step4 : selectKnobs 1
        { s with
          protocol := some 0,
          subscribed := true,
          sendQueue := ((s.sendQueue ++ [[0x9f, 12, 127]])
            ++ ((List.range 16).map fun p =>
                  [0x99, listAt drumPads p, drumColour]))
            ++ ((List.range 16).map fun p =>
                  [0x90, listAt lkm3SessionPads p, listAt s.padColour p]) }
      = { s with
          protocol := some 0,
          subscribed := true,
          ccOffset := 1,
          sendQueue := (((s.sendQueue ++ [[0x9f, 12, 127]])
            ++ ((List.range 16).map fun p =>
                  [0x99, listAt drumPads p, drumColour]))
            ++ ((List.range 16).map fun p =>
                  [0x90, listAt lkm3SessionPads p, listAt s.padColour p]))
            ++ [[0xbf, 9, 1]] } :=
    selectKnobs_active 1 _ rfl h1 h2 (by omega)
  rw [e1, step1, step2, step3, step4]
  refine ⟨?_, rfl, rfl⟩
  simp [List.append_assoc]

/-- C9 (witness): the amended enable-sequence theorem applied at a
concrete active-Launchkey state. -/
theorem launchkey_enable_sequence_witness :
    (enableDevice true sLK).sendQueue = sLK.sendQueue
      ++ [[0x9f, 12, 127]]
      ++ ((List.range 16).map fun p => [0x99, listAt drumPads p, drumColour])
      ++ ((List.range 16).map fun p =>
            [0x90, listAt lkm3SessionPads p, listAt sLK.padColour p])
      ++ [[0xbf, 9, 1]] ∧
    (enableDevice true sLK).subscribed = true ∧
    (enableDevice true sLK).ccOffset = 1 :=
  launchkey_enable_sequence sLK rfl rfl

/-- C5 (counterexample): the dedicated control-channel bank message
(CC 9) decoded from the device with value 7 -- outside the 0..6 range the
claim says is rejected -- is not rejected: it changes the CC offset (from
0 to 8 * (7-1) = 48) and, unlike the public operation, enqueues no
confirmation envelope; so the claimed behaviour does not hold for the
decoded control-channel message. -/
theorem ccBank_handler_counterexample :
    sLK.ccOffset = 0 ∧
    (protocolHandler [0xb0, 9, 7] sLK).state.ccOffset = 48 ∧
    (protocolHandler [0xb0, 9, 7] sLK).state.sendQueue = sLK.sendQueue := by
  decide

/-- C5 (amended): the public bank-select operation `selectKnobs` rejects
banks above 6, leaving the CC offset and the queue unchanged, and for an
in-range bank on an active Launchkey sets the CC offset to the bank number
and enqueues exactly one confirmation envelope; the dedicated
control-channel message (CC 9, any value v) instead sets the CC offset to
8 * (v - 1) with no range check and enqueues no envelope and produces no
other output. -/
theorem bankSelect_behaviour (s : MState) (bank v st : Nat) :
    (7 ≤ bank → (selectKnobs bank s).ccOffset = s.ccOffset ∧
      (selectKnobs bank s).sendQueue = s.sendQueue) ∧
    (s.protocol = some 0 → s.inputProtocol = some 0 →
      s.outputProtocol = some 0 → bank < 7 →
      selectKnobs bank s
        = { s with
            ccOffset := (bank : Int),
            sendQueue := s.sendQueue ++ [[0xbf, 9, bank]] }) ∧
    (s.protocol = some 0 → st &&& 0xF0 = 0xb0 →
      protocolHandler [st, 9, v] s
        = ⟨{ s with ccOffset := 8 * ((v : Int) - 1) }, [], []⟩) := by
  refine ⟨?_, ?_, ?_⟩
  · intro hb
    have hb7 : ¬ bank < 7 := by omega
    rcases hp : s.protocol with _ | k
    · simp [selectKnobs, hp]
    · match k with
      | 0 =>
        by_cases hio : s.inputProtocol = s.outputProtocol <;>
          simp [selectKnobs, isDeviceConnected, hp, hb7, hio]
      | (k + 1) => simp [selectKnobs, hp]
  · intro hp h1 h2 hb
    exact selectKnobs_active bank s hp h1 h2 hb
  · intro hp hmask
    have h90 : ¬ st &&& 0xF0 = 0x90 := by rw [hmask]; decide
    have h80 : ¬ st &&& 0xF0 = 0x80 := by rw [hmask]; decide
    cases hsh : s.shift <;>
      simp [protocolHandler, protocolHandlerBody, hp, hmask, h90, h80, hsh]

/-- C5 (witness): the amended theorem applied at the constructed active
state -- bank 9 rejected, bank 3 selected with one envelope, CC 9 value 7
decoded into offset 48 with no envelope. -/
theorem bankSelect_behaviour_witness :
    ((selectKnobs 9 sLK).ccOffset = sLK.ccOffset ∧
      (selectKnobs 9 sLK).sendQueue = sLK.sendQueue) ∧
    selectKnobs 3 sLK
      = { sLK with
          ccOffset := (3 : Int),
          sendQueue := sLK.sendQueue ++ [[0xbf, 9, 3]] } ∧
    protocolHandler [0xb0, 9, 7] sLK
      = ⟨{ sLK with ccOffset := 48 }, [], []⟩ := by
  obtain ⟨hrej, -, -⟩ := bankSelect_behaviour sLK 9 7 0xb0
  obtain ⟨-, hsel, hcc⟩ := bankSelect_behaviour sLK 3 7 0xb0
  refine ⟨hrej (by omega), hsel rfl rfl rfl (by omega), ?_⟩
  have h := hcc rfl (by decide)
  rw [h]
  decide

/-- C6 (counterexample): in the reachable state `sBank` (CC offset 1008,
set by the device sending CC 9 value 127), an unshifted knob event on
controller 21 forwards host MIDI whose controller byte is
(21 + 1008) mod 256 = 5, not 21 + 1008 = 1029 -- the int value is
truncated into the unsigned-char MIDI byte, so the forwarded controller
number is not equal to the incoming number plus ccBankOffset. -/
theorem knobRemap_wraparound_counterexample :
    sBank.ccOffset = 1008 ∧ sBank.shift = false ∧
    sBank.midiChannel = 0 ∧
    (protocolHandler [0xb0, 21, 10] sBank).hostOut = [[176, 5, 10]] ∧
    ¬ ((21 : Int) + sBank.ccOffset = 5) := by
  decide

/-- C6 (amended): the same physical control decoded with shift held and
not held yields two different semantic actions (play button 115: toggle
MIDI play vs toggle audio play; navigation button 104: switch-select vs
back-up); and every CC event in the knob range 21..28 is forwarded as one
host MIDI message on the configured channel whose controller byte is
(incoming + ccBankOffset, plus 40 when shifted) reduced modulo 256 --
equal to the plain sum whenever that sum is below 256. -/
theorem modifier_gated_decode_and_remap (s : MState) (st d1 d2 : Nat) :
    (s.protocol = some 0 →
      (protocolHandler [0xb0, 115, 127] { s with shift := false }).oscOut
          = [.toggleMidiPlay] ∧
        (protocolHandler [0xb0, 115, 127] { s with shift := true }).oscOut
          = [.toggleAudioPlay] ∧
        (protocolHandler [0xb0, 104, 127] { s with shift := false }).oscOut
          = [.switchSelectShort] ∧
        (protocolHandler [0xb0, 104, 127] { s with shift := true }).oscOut
          = [.backUp] ∧
        OscAction.toggleMidiPlay ≠ OscAction.toggleAudioPlay ∧
        OscAction.switchSelectShort ≠ OscAction.backUp) ∧
    (s.protocol = some 0 → st &&& 0xF0 = 0xb0 → 20 < d1 → d1 < 29 →
      protocolHandler [st, d1, d2] s
        = ⟨s, [[(0xb0 ||| s.midiChannel) % 256,
                byteOfInt ((d1 : Int) + s.ccOffset
                  + (if s.shift then 40 else 0)), d2 % 256]], []⟩) := by
  constructor
  · intro hp
    have hc1 : ¬ ((176 : Nat) &&& 240 = 144) := by decide
    have hc2 : ¬ ((176 : Nat) &&& 240 = 128) := by decide
    have hc3 : (176 : Nat) &&& 240 = 176 := by decide
    refine ⟨?_, ?_, ?_, ?_, by decide, by decide⟩ <;>
      simp [protocolHandler, protocolHandlerBody, hp, hc1, hc2, hc3]
  · intro hp hmask hlo hhi
    have h90 : ¬ st &&& 0xF0 = 0x90 := by rw [hmask]; decide
    have h80 : ¬ st &&& 0xF0 = 0x80 := by rw [hmask]; decide
    have h9 : d1 ≠ 9 := by omega
    have h108 : d1 ≠ 108 := by omega
    have h104 : d1 ≠ 104 := by omega
    have h105 : d1 ≠ 105 := by omega
    have h103 : d1 ≠ 103 := by omega
    have h102 : d1 ≠ 102 := by omega
    have h115 : d1 ≠ 115 := by omega
    have h117 : d1 ≠ 117 := by omega
    cases hsh : s.shift <;>
      simp [protocolHandler, protocolHandlerBody, hp, hmask, h90, h80, h9,
        h108, h104, h105, h103, h102, h115, h117, hlo, hhi, hsh]

/-- C6 (witness): the amended theorem at a concrete state -- play button
decode and a knob event on CC 21 with offset 0, channel 0 (no
wraparound: byte = 21). -/
theorem modifier_gated_decode_and_remap_witness :
    (protocolHandler [0xb0, 115, 127] { sLK with shift := false }).oscOut
      = [.toggleMidiPlay] ∧
    protocolHandler [0xb0, 21, 5] sLK = ⟨sLK, [[176, 21, 5]], []⟩ := by
  have h := modifier_gated_decode_and_remap sLK 0xb0 21 5
  refine ⟨(h.1 rfl).1, ?_⟩
  have h2 := h.2 rfl (by decide) (by decide) (by decide)
  rw [h2]
  decide

/-- C8 (counterexample): with the Launchkey active (16 session pads), the
incoming status notification for sequence index 20 -- outside the valid
0..15 pad range -- still records the pad's colour (palette entry 63 for
group 5) although it enqueues nothing; the stored pad state is not
unchanged, refuting the claim that such operations are ignored. -/
theorem padIndex_colour_store_counterexample :
    sLK.protocol = some 0 ∧
    (onOscStatus 0 20 .stopped 5 sLK).sendQueue = sLK.sendQueue ∧
    listAt (onOscStatus 0 20 .stopped 5 sLK).padColour 20 = 63 ∧
    listAt sLK.padColour 20 = 0 ∧
    (onOscStatus 0 20 .stopped 5 sLK).padColour ≠ sLK.padColour := by
  decide

/-- C8 (amended): a status notification with a sequence index above 63 is
fully ignored; the per-device envelope emission ignores indices outside
the active device's pad range (16 or more for the Launchkey, 64 or more
for the Launchpad, and everything when no device is active) leaving the
state unchanged; but for a 16-pad Launchkey an index in 16..63 still
records the pad colour (and enqueues nothing). -/
theorem padIndex_range_behaviour (s : MState) (bank seq grp : Nat)
    (st : SeqState) :
    (63 < seq → onOscStatus bank seq st grp s = s) ∧
    (s.protocol = some 0 → 16 ≤ seq → sendPadStatusToDevice seq st s = s) ∧
    (s.protocol = some 1 → 64 ≤ seq → sendPadStatusToDevice seq st s = s) ∧
    (s.protocol = none → sendPadStatusToDevice seq st s = s) ∧
    (s.protocol = some 0 → 16 ≤ seq → seq ≤ 63 →
      onOscStatus bank seq st grp s
        = { s with
            padColour := s.padColour.set seq (listAt padColours (grp % 16)) }) := by
  refine ⟨?_, ?_, ?_, ?_, ?_⟩
  · intro h
    simp [onOscStatus, h]
  · intro hp h
    have h16 : ¬ seq < 16 := by omega
    simp [sendPadStatusToDevice, hp, h16]
  · intro hp h
    have h64 : ¬ seq < 64 := by omega
    simp [sendPadStatusToDevice, hp, h64]
  · intro hp
    simp [sendPadStatusToDevice, hp]
  · intro hp h16 h63
    have hno : ¬ 63 < seq := by omega
    have h16n : ¬ seq < 16 := by omega
    simp [onOscStatus, hno, sendPadStatusToDevice, hp, h16n]

/-- C8 (witness): the amended theorem applied at concrete inputs: index
70 is fully ignored, index 20 on the active Launchkey emits nothing, and
index 20 still records its colour. -/
theorem padIndex_range_behaviour_witness :
    onOscStatus 0 70 .playing 3 sLK = sLK ∧
    sendPadStatusToDevice 20 .playing sLK = sLK ∧
    onOscStatus 0 20 .playing 3 sLK
      = { sLK with
          padColour := sLK.padColour.set 20 (listAt padColours (3 % 16)) } := by
  obtain ⟨h70, -, -, -, -⟩ := padIndex_range_behaviour sLK 0 70 3 .playing
  obtain ⟨-, h20a, -, -, h20b⟩ := padIndex_range_behaviour sLK 0 20 3 .playing
  exact ⟨h70 (by omega), h20a rfl (by omega), h20b rfl (by omega) (by omega)⟩

end ZynMidi
